import Mathlib

/-!
Verification of the asynchronous operation orchestration layer of the
jybstudio repository: the retry executor `withRetry`, the operation poller
`pollOperation`, the artifact-download wrapper, the synthetic progress
estimator tick, the montage-analysis JSON fallback, and the user-facing
error classification of `VideoGenerator.handleGenerate`.

Each definition is a shallow embedding of the corresponding TypeScript in
`src/services/geminiService.ts`, `src/components/VideoGenerator.tsx`,
`src/components/Header.tsx` (LogoAnimator) and
`src/components/ImageEnhancer.tsx`.  JavaScript strings are Lean `String`s,
JS numbers that only ever hold integers are `Nat`, and real-valued
quantities (millisecond delays built from `Math.random()`, progress values)
are `ℚ`.  Thrown JS values are the `error` side of `Except`.
-/

namespace JybStudio

/-- A JS `x || y` on strings: `x` when it is present and truthy (a string is
falsy exactly when it is empty or the field is absent), else `y`.  Used to
embed expressions such as `error?.message || ""` in `withRetry`
(geminiService.ts:23-25) and `currentOp.error.message || 'Generation failed'`
(geminiService.ts:204). -/
def orElseStr (a : Option String) (b : String) : String :=
  match a with
  | some s => if s = "" then b else s
  | none => b

/-- ASCII lower-casing of one character, the fragment of JS
`String.prototype.toLowerCase` exercised by the error fields this program
inspects (all ASCII). -/
def lcChar (c : Char) : Char :=
  if 65 ≤ c.toNat && c.toNat ≤ 90 then Char.ofNat (c.toNat + 32) else c

/-- ASCII lower-casing of a string, embedding `s.toLowerCase()`. -/
def lcStr (s : String) : String :=
  String.mk (s.data.map lcChar)

/-- Whether `pat` occurs at the start of `s` (on character lists). -/
def listStartsWith : List Char → List Char → Bool
  | [], _ => true
  | _ :: _, [] => false
  | a :: as, b :: bs => a == b && listStartsWith as bs

/-- Whether `pat` occurs somewhere inside `s` (on character lists). -/
def listHasSub (pat : List Char) : List Char → Bool
  | [] => listStartsWith pat []
  | c :: rest => listStartsWith pat (c :: rest) || listHasSub pat rest

/-- Embedding of JS `s.includes(pat)`: substring containment. -/
def strIncludes (s pat : String) : Bool :=
  listHasSub pat.data s.data

/-- A thrown JS error value as inspected by this program: optional `message`,
`status`, `code` and nested `error.code` fields.  Numeric `status`/`code`
values pass through `.toString()` in the source (geminiService.ts:24-25), so
they are embedded directly as their decimal strings. -/
structure JSError where
  message : Option String
  status : Option String
  code : Option String
  nestedCode : Option String
deriving DecidableEq, Repr

/-- The retry test of `withRetry` (geminiService.ts:23-27): with
`message = (error?.message || "").toLowerCase()`,
`status = (error?.status || "").toString().toLowerCase()` and
`code = (error?.code || error?.error?.code || "").toString()`, the failure is
retried (while attempts remain) exactly when
`code === "429" || status.includes("429") || message.includes("quota")`. -/
def isRateLimited (e : JSError) : Bool :=
  let message := lcStr (orElseStr e.message "")
  let status := lcStr (orElseStr e.status "")
  let code := orElseStr e.code (orElseStr e.nestedCode "")
  code == "429" || strIncludes status "429" || strIncludes message "quota"

/-- The backoff delay computed before retry `i`
(geminiService.ts:28): `Math.pow(2, i) * 5000 + Math.random() * 3000`,
with `jitter` standing for the concrete value of `Math.random() * 3000`. -/
def waitTime (i : Nat) (jitter : ℚ) : ℚ :=
  2 ^ i * 5000 + jitter

/-- The observable outcome of one `withRetry` run: the returned or thrown
value (`Except.error none` embeds the `throw lastError` of
geminiService.ts:35 when no attempt ever ran, i.e. throwing `undefined`),
the list of backoff delays slept, and how many times the wrapped action was
invoked. -/
structure RetryTrace (α : Type) where
  result : Except (Option JSError) α
  sleeps : List ℚ
  calls : Nat
deriving Repr

/-- The loop of `withRetry` (geminiService.ts:18-34).  `f i` is the outcome
of the `(i+1)`-th invocation of the wrapped action, `r i` the jitter drawn
at attempt `i`, `m` the `maxRetries` bound, and the final `Nat` argument the
remaining loop iterations (`m - i` at entry).  On a failure that is
rate-limited while `i < maxRetries - 1`, the executor sleeps
`waitTime i (r i)` and continues; otherwise it rethrows the failure. -/
def withRetryGo {α : Type} (f : Nat → Except JSError α) (r : Nat → ℚ) (m : Nat) :
    Nat → Nat → RetryTrace α
  | _, 0 => ⟨.error none, [], 0⟩
  | i, fuel + 1 =>
    match f i with
    | .ok v => ⟨.ok v, [], 1⟩
    | .error e =>
      if isRateLimited e ∧ i < m - 1 then
        let rest := withRetryGo f r m (i + 1) fuel
        ⟨rest.result, waitTime i (r i) :: rest.sleeps, rest.calls + 1⟩
      else ⟨.error (some e), [], 1⟩

/-- Embedding of `withRetry(fn, maxRetries)` (geminiService.ts:16-36):
run the loop from attempt 0 with `maxRetries` iterations available. -/
def withRetryRun {α : Type} (f : Nat → Except JSError α) (r : Nat → ℚ)
    (maxRetries : Nat) : RetryTrace α :=
  withRetryGo f r maxRetries 0 maxRetries

/-- The default `maxRetries` of `withRetry` (geminiService.ts:16). -/
def maxRetriesDefault : Nat := 7

/-- Helper: when the first `k` attempts starting at `i` fail rate-limited
and attempt `i + k` succeeds, the loop returns that success having invoked
the action `k + 1` times. -/
theorem withRetryGo_ok {α : Type} (f : Nat → Except JSError α) (r : Nat → ℚ) (m : Nat) :
    ∀ (k i fuel : Nat) (v : α),
      (∀ j, j < k → ∃ e, f (i + j) = .error e ∧ isRateLimited e = true) →
      f (i + k) = .ok v →
      i + k < m →
      k < fuel →
      (withRetryGo f r m i fuel).result = .ok v ∧
        (withRetryGo f r m i fuel).calls = k + 1 := by
  intro k
  induction k with
  | zero =>
    intro i fuel v _ hsucc _ hfuel
    match fuel, hfuel with
    | fuel + 1, _ =>
      simp only [Nat.add_zero] at hsucc
      simp [withRetryGo, hsucc]
  | succ k ih =>
    intro i fuel v hfail hsucc hlt hfuel
    match fuel, hfuel with
    | fuel + 1, hfuel =>
      obtain ⟨e, he, hrl⟩ := hfail 0 (Nat.succ_pos k)
      simp only [Nat.add_zero] at he
      have hcond : isRateLimited e = true ∧ i < m - 1 := by
        exact ⟨hrl, by omega⟩
      have ih' := ih (i + 1) fuel v
        (fun j hj => by
          have := hfail (j + 1) (by omega)
          simpa [Nat.add_assoc, Nat.add_comm 1 j] using this)
        (by simpa [Nat.add_assoc, Nat.add_comm 1 k] using hsucc)
        (by omega) (by omega)
      simp only [withRetryGo, he]
      rw [if_pos (by exact ⟨hrl, by omega⟩)]
      exact ⟨ih'.1, by simp [ih'.2]⟩

/-- C1: for a zero-argument fallible action whose first `k` invocations fail
with failures `withRetry` classifies as rate-limited (code or status 429, or
message containing "quota"), with `k` below the default budget of 7
attempts, and whose `(k+1)`-th invocation succeeds, `withRetry` with the
default budget returns that success, invoking the action exactly `k + 1 ≤ 7`
times. -/
theorem withRetry_transient_then_success {α : Type} (f : Nat → Except JSError α)
    (r : Nat → ℚ) (k : Nat) (v : α)
    (hk : k < 7)
    (hfail : ∀ j, j < k → ∃ e, f j = .error e ∧ isRateLimited e = true)
    (hsucc : f k = .ok v) :
    (withRetryRun f r maxRetriesDefault).result = .ok v ∧
      (withRetryRun f r maxRetriesDefault).calls = k + 1 ∧
      (withRetryRun f r maxRetriesDefault).calls ≤ 7 := by
  have h := withRetryGo_ok f r 7 k 0 7 v
    (fun j hj => by simpa using hfail j hj)
    (by simpa using hsucc) (by omega) (by omega)
  have h2 : (withRetryRun f r maxRetriesDefault).calls = k + 1 := h.2
  exact ⟨h.1, h2, by omega⟩

/-- A rate-limited failure used as concrete input: a quota message. -/
def quotaErr : JSError := ⟨some "quota exceeded", none, none, none⟩

/-- A concrete action failing rate-limited twice, then succeeding. -/
def actionC1 : Nat → Except JSError Nat :=
  fun i => if i < 2 then .error quotaErr else .ok 5

/-- Witness for C1 at the concrete action `actionC1` (two 429-class
failures, then success). -/
theorem withRetry_transient_then_success_witness :
    (withRetryRun actionC1 (fun _ => 0) maxRetriesDefault).result = .ok 5 ∧
      (withRetryRun actionC1 (fun _ => 0) maxRetriesDefault).calls = 2 + 1 ∧
      (withRetryRun actionC1 (fun _ => 0) maxRetriesDefault).calls ≤ 7 :=
  withRetry_transient_then_success actionC1 (fun _ => 0) 2 5 (by omega)
    (fun j hj => ⟨quotaErr, by simp [actionC1, hj], by decide⟩)
    (by simp [actionC1])

/-- C3: within the default 7-attempt budget a backoff sleep is performed
only before retries `i ≤ 5`, and for those the slept delay is
`min(cap, 2^i * 5000) + jitter` with the effective cap
`cap = 2^5 * 5000 = 160000` (the source applies no explicit `min`, but the
attempt budget makes `160000` the largest jitter-free delay, so the
equality holds); with jitter in `[0, 3000)` every delay is below
`cap + 3000`, and the jitter-free part is non-decreasing in `i`. -/
theorem backoff_delay_spec :
    (∀ (i : Nat) (q : ℚ), i ≤ 5 → 0 ≤ q → q < 3000 →
      waitTime i q = min 160000 ((2 : ℚ) ^ i * 5000) + q ∧
        waitTime i q < 160000 + 3000) ∧
    (∀ i j : Nat, i ≤ j → waitTime i 0 ≤ waitTime j 0) := by
  constructor
  · intro i q hi hq0 hq
    have h2 : (2 : ℚ) ^ i ≤ 2 ^ 5 := pow_le_pow_right₀ (by norm_num) hi
    have h32 : ((2 : ℚ) ^ 5) = 32 := by norm_num
    have hle : (2 : ℚ) ^ i * 5000 ≤ 160000 := by nlinarith
    constructor
    · rw [waitTime, min_eq_right hle]
    · rw [waitTime]; linarith
  · intro i j hij
    have h2 : (2 : ℚ) ^ i ≤ 2 ^ j := pow_le_pow_right₀ (by norm_num) hij
    simp only [waitTime]
    nlinarith

/-- Witness for C3 at `i = 3`, jitter `100`, and the index pair `2 ≤ 4`. -/
theorem backoff_delay_spec_witness :
    (waitTime 3 100 = min 160000 ((2 : ℚ) ^ 3 * 5000) + 100 ∧
      waitTime 3 100 < 160000 + 3000) ∧
    waitTime 2 0 ≤ waitTime 4 0 :=
  ⟨backoff_delay_spec.1 3 100 (by norm_num) (by norm_num) (by norm_num),
    backoff_delay_spec.2 2 4 (by norm_num)⟩

/-- A bare JS `new Error(msg)`: only a message, no `status`/`code` fields. -/
def mkError (msg : String) : JSError :=
  ⟨some msg, none, none, none⟩

/-- An HTTP response as inspected by the artifact-download wrapper:
`ok`, numeric `status`, `statusText`, and the body bytes (opaque). -/
structure FetchResponse where
  ok : Bool
  status : Nat
  statusText : String
  body : String
deriving DecidableEq, Repr

/-- The URL the artifact fetch requests
(VideoGenerator.tsx:76, ImageEnhancer.tsx:82): the result URI with the
authorization key appended, `` `${downloadLink}&key=${apiKey}` ``. -/
def downloadUrl (downloadLink apiKey : String) : String :=
  downloadLink ++ "&key=" ++ apiKey

/-- One invocation of the download action passed to `withRetry` in
`VideoGenerator.handleGenerate` (VideoGenerator.tsx:74-85), as a function of
the HTTP response: a non-ok response with status 429 throws
`new Error("429")`, any other non-ok response throws
`new Error("Download failed: " + statusText)`, an ok response returns the
body. -/
def downloadAttempt (resp : FetchResponse) : Except JSError String :=
  if resp.ok = false then
    if resp.status = 429 then .error (mkError "429")
    else .error (mkError ("Download failed: " ++ resp.statusText))
  else .ok resp.body

/-- C2 (code bug): the auth key is appended to the result URI, but the
failure the 429 branch throws — `new Error("429")`, whose message is "429"
and which has no `code`/`status` fields — does NOT satisfy `withRetry`'s
rate-limited test (which requires code "429", a status containing "429", or
a message containing "quota"), so instead of being retried with backoff the
fetch failure propagates after a single attempt, with no sleep; other
non-2xx responses also propagate unretried, as the claim says. -/
theorem download_429_not_classified_rate_limited :
    downloadUrl "https://files.example/video?alt=media" "KEY" =
        "https://files.example/video?alt=media&key=KEY" ∧
    downloadAttempt ⟨false, 429, "Too Many Requests", ""⟩ =
        .error (mkError "429") ∧
    isRateLimited (mkError "429") = false ∧
    (withRetryRun (fun _ => downloadAttempt ⟨false, 429, "Too Many Requests", ""⟩)
        (fun _ => 0) maxRetriesDefault).result = .error (some (mkError "429")) ∧
    (withRetryRun (fun _ => downloadAttempt ⟨false, 429, "Too Many Requests", ""⟩)
        (fun _ => 0) maxRetriesDefault).sleeps = [] ∧
    (withRetryRun (fun _ => downloadAttempt ⟨false, 429, "Too Many Requests", ""⟩)
        (fun _ => 0) maxRetriesDefault).calls = 1 ∧
    isRateLimited (mkError ("Download failed: " ++ "Not Found")) = false := by
  refine ⟨rfl, rfl, by decide, rfl, rfl, rfl, by decide⟩

/-- A concrete action failing rate-limited once, then succeeding; used to
exhibit a run of `withRetry` in which a backoff sleep occurs. -/
def actionC4 : Nat → Except JSError Nat :=
  fun i => if i = 0 then .error quotaErr else .ok 42

/-- C4 counterexample: `withRetry` (geminiService.ts:16-36) receives no
cancellation token and its `sleep` (geminiService.ts:4) is a bare
`setTimeout` promise, so the run is a function of the action and jitter
alone — no abort state enters the computation.  In this concrete run a
backoff sleep of `waitTime 0 0 = 5000` is performed in full and is followed
by a further attempt that returns the success `42`: with the token aborted
during that sleep the executor still completes the sleep, retries, and
returns the success rather than stopping promptly with a Cancelled
failure. -/
theorem retry_sleep_unaffected_by_abort_cex :
    (withRetryRun actionC4 (fun _ => 0) maxRetriesDefault).result = .ok 42 ∧
    (withRetryRun actionC4 (fun _ => 0) maxRetriesDefault).sleeps = [waitTime 0 0] ∧
    waitTime 0 0 = 5000 ∧
    (withRetryRun actionC4 (fun _ => 0) maxRetriesDefault).calls = 2 := by
  refine ⟨rfl, rfl, by norm_num [waitTime], rfl⟩

/-- Helper: every failure the retry loop propagates (other than the
`undefined` thrown when no attempt ran) was produced by the wrapped action
itself at some attempt within the window. -/
theorem withRetryGo_error_from_action {α : Type} (f : Nat → Except JSError α)
    (r : Nat → ℚ) (m : Nat) :
    ∀ (fuel i : Nat) (e : JSError),
      (withRetryGo f r m i fuel).result = .error (some e) →
      ∃ j, i ≤ j ∧ j < i + fuel ∧ f j = .error e := by
  intro fuel
  induction fuel with
  | zero =>
    intro i e h
    simp [withRetryGo] at h
  | succ fuel ih =>
    intro i e h
    rw [withRetryGo] at h
    cases hfi : f i with
    | ok v => rw [hfi] at h; simp at h
    | error e' =>
      rw [hfi] at h
      dsimp only at h
      by_cases hc : isRateLimited e' = true ∧ i < m - 1
      · rw [if_pos hc] at h
        obtain ⟨j, hj1, hj2, hj3⟩ := ih (i + 1) e h
        exact ⟨j, by omega, by omega, hj3⟩
      · rw [if_neg hc] at h
        simp at h
        exact ⟨i, Nat.le_refl i, by omega, by rw [hfi, h]⟩

/-- C4 amended: the Retry Executor does not observe cancellation — an abort
during a backoff sleep neither interrupts the sleep nor yields a Cancelled
failure from the executor; every failure `withRetry` propagates is one the
wrapped action itself produced at some attempt, never a synthesized
cancellation. -/
theorem withRetry_propagates_only_action_failures {α : Type}
    (f : Nat → Except JSError α) (r : Nat → ℚ) (m : Nat) (e : JSError)
    (h : (withRetryRun f r m).result = .error (some e)) :
    ∃ j, j < m ∧ f j = .error e := by
  obtain ⟨j, _, hj2, hj3⟩ := withRetryGo_error_from_action f r m m 0 e h
  exact ⟨j, by omega, hj3⟩

/-- A non-retryable failure used as concrete input. -/
def fatalErr : JSError := ⟨some "boom", none, none, none⟩

/-- Witness for the amended C4 theorem at a concrete always-failing
action. -/
theorem withRetry_propagates_only_action_failures_witness :
    ∃ j, j < 7 ∧
      (fun _ : Nat => (.error fatalErr : Except JSError Nat)) j = .error fatalErr :=
  withRetry_propagates_only_action_failures
    (fun _ => .error fatalErr) (fun _ => 0) 7 fatalErr rfl

/-- The failure message the service reports on daily-quota style errors. -/
def resExhErr : JSError := ⟨some "resource_exhausted", none, none, none⟩

/-- A concrete action failing once with `resource_exhausted`, then
succeeding — if the failure were retried the run would return `.ok 1`. -/
def actionC5 : Nat → Except JSError Nat :=
  fun i => if i = 0 then .error resExhErr else .ok 1

/-- C5 counterexample: a failure whose message is "resource_exhausted" does
NOT satisfy `withRetry`'s rate-limited test (geminiService.ts:27 checks the
message only for "quota"), so instead of sleeping and retrying — which would
reach the success at attempt 1 — the executor propagates the failure after a
single invocation with no sleep. -/
theorem resource_exhausted_cex :
    isRateLimited resExhErr = false ∧
    (withRetryRun actionC5 (fun _ => 0) maxRetriesDefault).result =
        .error (some resExhErr) ∧
    (withRetryRun actionC5 (fun _ => 0) maxRetriesDefault).sleeps = [] ∧
    (withRetryRun actionC5 (fun _ => 0) maxRetriesDefault).calls = 1 := by
  refine ⟨by decide, rfl, rfl, rfl⟩

/-- The user-facing outcome `VideoGenerator.handleGenerate` picks in its
catch block (VideoGenerator.tsx:100-110). -/
inductive UIOutcome
  | authRequired
  | quotaExhausted
  | fatal (msg : String)
deriving DecidableEq, Repr

/-- The error triage of `VideoGenerator.handleGenerate`
(VideoGenerator.tsx:98-110): `errStr` is the lower-cased serialization
`JSON.stringify(err).toLowerCase() + String(err).toLowerCase()` and `msg`
the error's message; entity-not-found or the re-auth sentinel triggers the
credential re-sync path, else 429 / "resource_exhausted" / the daily-quota
sentinel yields the quota-exhausted message, else the raw message is
surfaced (defaulting when falsy). -/
def classifyUIError (errStr msg : String) : UIOutcome :=
  if strIncludes errStr "requested entity was not found" ||
      msg == "RETRY_KEY_SELECTION" then .authRequired
  else if strIncludes errStr "429" || strIncludes errStr "resource_exhausted" ||
      msg == "DAILY_QUOTA_EXHAUSTED" then .quotaExhausted
  else .fatal (orElseStr (some msg) "An unexpected error occurred.")

/-- Helper: a first-attempt failure that the retry test rejects propagates
immediately: one call, no sleep. -/
theorem withRetryGo_first_fatal {α : Type} (f : Nat → Except JSError α)
    (r : Nat → ℚ) (m i fuel : Nat) (e : JSError)
    (hf : f i = .error e) (hclass : isRateLimited e = false) :
    withRetryGo f r m i (fuel + 1) = ⟨.error (some e), [], 1⟩ := by
  rw [withRetryGo, hf]
  dsimp only
  rw [if_neg]
  intro hc
  rw [hclass] at hc
  exact Bool.false_ne_true hc.1

/-- C5 amended: a failure whose message contains "resource_exhausted" is not
rate-limited for the Retry Executor (whose test checks only code/status 429
or a message containing "quota"): if the first attempt fails with it the
failure propagates immediately, after one invocation and zero sleeps.  The
string "resource_exhausted" is recognized only downstream, by the video
generator's error triage, which surfaces it as the quota-exhausted message
rather than retrying. -/
theorem resource_exhausted_not_retried {α : Type} (f : Nat → Except JSError α)
    (r : Nat → ℚ) (e : JSError) (errStr msg : String)
    (hclass : isRateLimited e = false)
    (hf : f 0 = .error e)
    (hres : strIncludes errStr "resource_exhausted" = true)
    (hauth : strIncludes errStr "requested entity was not found" = false)
    (hsent : (msg == "RETRY_KEY_SELECTION") = false) :
    (withRetryRun f r maxRetriesDefault).result = .error (some e) ∧
      (withRetryRun f r maxRetriesDefault).sleeps = [] ∧
      (withRetryRun f r maxRetriesDefault).calls = 1 ∧
      classifyUIError errStr msg = UIOutcome.quotaExhausted := by
  have h := withRetryGo_first_fatal f r 7 0 6 e hf hclass
  have hrun : withRetryRun f r maxRetriesDefault = ⟨.error (some e), [], 1⟩ := h
  refine ⟨by rw [hrun], by rw [hrun], by rw [hrun], ?_⟩
  rw [classifyUIError, if_neg, if_pos]
  · rw [hres]; simp
  · rw [hauth, hsent]; simp

/-- Witness for the amended C5 theorem at the concrete `resource_exhausted`
failure and its serialized error string. -/
theorem resource_exhausted_not_retried_witness :
    (withRetryRun actionC5 (fun _ => 0) maxRetriesDefault).result =
        .error (some resExhErr) ∧
      (withRetryRun actionC5 (fun _ => 0) maxRetriesDefault).sleeps = [] ∧
      (withRetryRun actionC5 (fun _ => 0) maxRetriesDefault).calls = 1 ∧
      classifyUIError "error: resource_exhausted" "resource_exhausted" =
        UIOutcome.quotaExhausted :=
  resource_exhausted_not_retried actionC5 (fun _ => 0) resExhErr
    "error: resource_exhausted" "resource_exhausted"
    (by decide) rfl (by decide) (by decide) (by decide)

/-- The `error` payload of a remote Operation, as read by `pollOperation`
(geminiService.ts:204): an optional message. -/
structure OpError where
  message : Option String
deriving DecidableEq, Repr

/-- A remote long-running Operation handle as `pollOperation` inspects it:
`done` and the optional `error` payload (a present payload is truthy for
the `if (currentOp.error)` test). -/
structure Operation where
  done : Bool
  error : Option OpError
deriving DecidableEq, Repr

/-- The `new Error("AbortError")` thrown when the signal is observed
aborted (geminiService.ts:197). -/
def abortError : JSError := mkError "AbortError"

/-- One observable step of the polling loop: the signal check, the fixed
poll-interval sleep (in ms), or a refetch of the operation through the
Retry Executor (recording how many network attempts that run made). -/
inductive PollEvent
  | checkSignal (aborted : Bool)
  | sleep (ms : ℚ)
  | fetch (calls : Nat)
deriving DecidableEq, Repr

/-- The post-loop tail of `pollOperation` (geminiService.ts:204-205): a done
operation with an error payload throws
`new Error(currentOp.error.message || 'Generation failed')`, otherwise the
operation is returned. -/
def pollTerminal (op : Operation) : Except (Option JSError) Operation :=
  match op.error with
  | some e => .error (some (mkError (orElseStr e.message "Generation failed")))
  | none => .ok op

/-- The loop of `pollOperation` (geminiService.ts:194-206).  `pa n a` is the
outcome of attempt `a` of the refetch issued at loop iteration `n` (the
action `withRetry` wraps at geminiService.ts:199-202), `r n` its jitter
draws, `ab n` whether the signal is observed aborted at iteration `n`'s
check, and `fuel` bounds the iterations modelled (`none` = the loop did not
reach a terminal state within `fuel` iterations).  Each non-terminal
iteration checks the signal, sleeps the fixed 10000 ms interval, and
refetches through the Retry Executor; the result pairs the returned or
thrown value with the chronological event trace. -/
def pollGo (pa : Nat → Nat → Except JSError Operation) (r : Nat → Nat → ℚ)
    (ab : Nat → Bool) :
    Operation → Nat → Nat →
      Option (Except (Option JSError) Operation × List PollEvent)
  | op, _, 0 => if op.done then some (pollTerminal op, []) else none
  | op, n, fuel + 1 =>
    if op.done then some (pollTerminal op, [])
    else if ab n then
      some (.error (some abortError), [PollEvent.checkSignal true])
    else
      let run := withRetryRun (pa n) (r n) maxRetriesDefault
      let evs := [PollEvent.checkSignal false, PollEvent.sleep 10000,
        PollEvent.fetch run.calls]
      match run.result with
      | .error e => some (.error e, evs)
      | .ok op2 =>
        match pollGo pa r ab op2 (n + 1) fuel with
        | none => none
        | some (res, evs2) => some (res, evs ++ evs2)

/-- Embedding of `pollOperation(operation, signal)`
(geminiService.ts:194-206), starting the loop at iteration 0. -/
def pollOperation (pa : Nat → Nat → Except JSError Operation)
    (r : Nat → Nat → ℚ) (ab : Nat → Bool) (op : Operation) (fuel : Nat) :
    Option (Except (Option JSError) Operation × List PollEvent) :=
  pollGo pa r ab op 0 fuel

/-- C6: when the operation is not yet done and the cancellation signal is
already aborted as the poller starts, `pollOperation` terminates at once
with the abort failure — the trace holds only the signal check, so no poll
network call (and no sleep) is ever issued. -/
theorem poll_aborted_before_start_cancelled
    (pa : Nat → Nat → Except JSError Operation) (r : Nat → Nat → ℚ)
    (ab : Nat → Bool) (op : Operation) (fuel : Nat)
    (hnd : op.done = false) (hab : ab 0 = true) (hfuel : 0 < fuel) :
    pollOperation pa r ab op fuel =
      some (.error (some abortError), [PollEvent.checkSignal true]) := by
  match fuel, hfuel with
  | fuel + 1, _ => simp [pollOperation, pollGo, hnd, hab]

/-- A concrete never-done operation. -/
def pendingOp : Operation := ⟨false, none⟩

/-- A concrete done operation with no error. -/
def doneOp : Operation := ⟨true, none⟩

/-- Witness for C6 with an already-aborted signal and a pending
operation. -/
theorem poll_aborted_before_start_cancelled_witness :
    pollOperation (fun _ _ => .ok doneOp) (fun _ _ => 0) (fun _ => true)
        pendingOp 3 =
      some (.error (some abortError), [PollEvent.checkSignal true]) :=
  poll_aborted_before_start_cancelled (fun _ _ => .ok doneOp) (fun _ _ => 0)
    (fun _ => true) pendingOp 3 rfl rfl (by omega)

/-- Helper: a done operation is terminal for the loop at any fuel, with an
empty event trace. -/
theorem pollGo_done (pa : Nat → Nat → Except JSError Operation)
    (r : Nat → Nat → ℚ) (ab : Nat → Bool) (op : Operation) (n fuel : Nat)
    (hd : op.done = true) :
    pollGo pa r ab op n fuel = some (pollTerminal op, []) := by
  cases fuel <;> simp [pollGo, hd]

/-- C9: an operation handle that is already `done` with no `error` payload
is returned immediately: the loop body never runs, so there is no sleep, no
network call and no signal check (empty trace), and this holds for every
signal state, aborted ones included — the result is the success, not a
Cancelled failure. -/
theorem pollOperation_done_immediate
    (pa : Nat → Nat → Except JSError Operation) (r : Nat → Nat → ℚ)
    (ab : Nat → Bool) (op : Operation) (fuel : Nat)
    (hd : op.done = true) (he : op.error = none) :
    pollOperation pa r ab op fuel = some (.ok op, []) := by
  rw [pollOperation, pollGo_done pa r ab op 0 fuel hd]
  simp [pollTerminal, he]

/-- Witness for C9: a done, error-free operation with an already-aborted
signal and zero fuel still returns successfully with an empty trace. -/
theorem pollOperation_done_immediate_witness :
    pollOperation (fun _ _ => .ok doneOp) (fun _ _ => 0) (fun _ => true)
        doneOp 0 = some (.ok doneOp, []) :=
  pollOperation_done_immediate (fun _ _ => .ok doneOp) (fun _ _ => 0)
    (fun _ => true) doneOp 0 rfl rfl

/-- The event trace of one non-terminal polling iteration whose refetch
succeeded on its first network attempt: signal check, 10-second sleep,
fetch. -/
def stepEvents : List PollEvent :=
  [PollEvent.checkSignal false, PollEvent.sleep 10000, PollEvent.fetch 1]

/-- The event trace of `N + 1` non-terminal polling iterations. -/
def pollSteps : Nat → List PollEvent
  | 0 => stepEvents
  | k + 1 => stepEvents ++ pollSteps k

/-- Helper: a refetch action that succeeds at once runs through the Retry
Executor with a single call and no sleeps. -/
theorem withRetryRun_const_ok {α : Type} (v : α) (r : Nat → ℚ) :
    withRetryRun (fun _ => .ok v) r maxRetriesDefault = ⟨.ok v, [], 1⟩ := rfl

/-- Helper: with refetches that return `ops n` at iteration `n`, a
never-aborted signal, and `ops (n + j)` pending for `j < N` but
`ops (n + N)` done, the loop from iteration `n` performs `N + 1` full
check/sleep/fetch iterations and ends with the terminal tail applied to
`ops (n + N)`. -/
theorem pollGo_run (ops : Nat → Operation) (r : Nat → Nat → ℚ) :
    ∀ (N n fuel : Nat) (op0 : Operation),
      op0.done = false →
      (∀ j, j < N → (ops (n + j)).done = false) →
      (ops (n + N)).done = true →
      N < fuel →
      pollGo (fun m _ => .ok (ops m)) r (fun _ => false) op0 n fuel =
        some (pollTerminal (ops (n + N)), pollSteps N) := by
  intro N
  induction N with
  | zero =>
    intro n fuel op0 h0 _ hdone hfuel
    match fuel, hfuel with
    | fuel + 1, _ =>
      rw [pollGo, if_neg (by rw [h0]; exact Bool.false_ne_true), if_neg (by simp)]
      simp only [withRetryRun_const_ok]
      rw [pollGo_done _ _ _ _ _ _ (by simpa using hdone)]
      simp [pollSteps, stepEvents]
  | succ N ih =>
    intro n fuel op0 h0 hmid hdone hfuel
    match fuel, hfuel with
    | fuel + 1, hfuel =>
      rw [pollGo, if_neg (by rw [h0]; exact Bool.false_ne_true), if_neg (by simp)]
      simp only [withRetryRun_const_ok]
      have hrec := ih (n + 1) fuel (ops n)
        (by simpa using hmid 0 (Nat.succ_pos N))
        (fun j hj => by
          have := hmid (j + 1) (by omega)
          simpa [Nat.add_assoc, Nat.add_comm 1 j] using this)
        (by simpa [Nat.add_assoc, Nat.add_comm 1 N] using hdone)
        (by omega)
      rw [hrec]
      simp only [Nat.add_assoc, Nat.add_comm 1 N]
      simp [pollSteps, stepEvents]

/-- C7: while each refetched operation is still pending the poller, per
iteration and in order, checks the token, sleeps the fixed 10-second
interval, then refetches the operation through the Retry Executor; the
first fetched operation with `done = true` ends the loop, and the result is
the success when it carries no error, and a failure surfacing that error's
message when it carries an error payload with a non-empty message. -/
theorem pollOperation_loop_and_terminal (ops : Nat → Operation)
    (r : Nat → Nat → ℚ) (N fuel : Nat) (op0 : Operation)
    (h0 : op0.done = false)
    (hmid : ∀ j, j < N → (ops j).done = false)
    (hdone : (ops N).done = true)
    (hfuel : N < fuel) :
    pollOperation (fun m _ => .ok (ops m)) r (fun _ => false) op0 fuel =
        some (pollTerminal (ops N), pollSteps N) ∧
      ((ops N).error = none → pollTerminal (ops N) = .ok (ops N)) ∧
      (∀ e msg, (ops N).error = some e → e.message = some msg → msg ≠ "" →
        pollTerminal (ops N) = .error (some (mkError msg))) := by
  refine ⟨?_, ?_, ?_⟩
  · have := pollGo_run ops r N 0 fuel op0 h0
      (fun j hj => by simpa using hmid j hj) (by simpa using hdone) hfuel
    simpa [pollOperation] using this
  · intro he; rw [pollTerminal, he]
  · intro e msg he hm hne
    rw [pollTerminal, he]
    simp only [orElseStr, hm]
    rw [if_neg hne]

/-- A concrete poll sequence: pending at fetches 0 and 1, done at fetch 2. -/
def opsW : Nat → Operation :=
  fun m => if m < 2 then pendingOp else doneOp

/-- Witness for C7: two pending refetches then a done one, with enough
fuel. -/
theorem pollOperation_loop_and_terminal_witness :
    pollOperation (fun m _ => .ok (opsW m)) (fun _ _ => 0) (fun _ => false)
        pendingOp 5 =
        some (pollTerminal (opsW 2), pollSteps 2) ∧
      ((opsW 2).error = none → pollTerminal (opsW 2) = .ok (opsW 2)) ∧
      (∀ e msg, (opsW 2).error = some e → e.message = some msg → msg ≠ "" →
        pollTerminal (opsW 2) = .error (some (mkError msg))) :=
  pollOperation_loop_and_terminal opsW (fun _ _ => 0) 2 5 pendingOp rfl
    (fun j hj => by simp [opsW, hj, pendingOp]) (by simp [opsW, doneOp])
    (by omega)

/-- One tick of the synthetic progress interval
(VideoGenerator.tsx:22-26, identical in Header.tsx:83-87): with `u` the
`Math.random()` draw in `[0, 1)`, a value below 90 grows by `u * 1.5`, a
value in `[90, 98)` grows by `u * 0.1`, and anything at or above 98 is held
unchanged. -/
def progressTick (prev u : ℚ) : ℚ :=
  if prev < 90 then prev + u * (3 / 2)
  else if prev < 98 then prev + u * (1 / 10)
  else prev

/-- The progress value after `n` ticks from the reset value 0
(`setProgress(0)` at VideoGenerator.tsx:20), with `u k` the random draw of
tick `k`. -/
def progressRun (u : Nat → ℚ) : Nat → ℚ
  | 0 => 0
  | n + 1 => progressTick (progressRun u n) (u n)

/-- The terminal paths of `VideoGenerator.handleGenerate` that decide which
explicit `setProgress` assignments run after polling ends. -/
inductive GenOutcome
  | success
  | abortedDuringFetch
  | noVideoData
  | failed
deriving DecidableEq, Repr

/-- The explicit `setProgress` assignments of one `handleGenerate`
invocation, in order, by terminal path (VideoGenerator.tsx:20,72,87-91):
every run starts with the reset to 0; when polling yields a download link,
99 is set before the artifact fetch (line 72); 100 is set only at line 89,
reached only when the artifact blob was retrieved and the signal is not
aborted; the no-download-link and error paths set nothing further. -/
def progressSets : GenOutcome → List ℚ
  | .success => [0, 99, 100]
  | .abortedDuringFetch => [0, 99]
  | .noVideoData => [0]
  | .failed => [0]

/-- Helper: every tick keeps the value strictly below `98.1`, starting from
0. -/
theorem progressRun_lt (u : Nat → ℚ) (hu : ∀ n, 0 ≤ u n ∧ u n < 1) :
    ∀ n, progressRun u n < 981 / 10 := by
  intro n
  induction n with
  | zero => norm_num [progressRun]
  | succ n ih =>
    obtain ⟨h0, h1⟩ := hu n
    rw [progressRun, progressTick]
    split_ifs with hlt hlt2
    · nlinarith
    · nlinarith
    · exact ih

/-- C8: from the reset value 0, every tick of the progress estimator
produces a value at least the previous one and the ticked value stays
strictly below 99 (indeed below 98.1), so it never reaches 99 before a
terminal operation state stops the interval; among the terminal paths of
`handleGenerate`, the value 100 is assigned only on the success path —
after the DONE poll outcome and the artifact retrieval — as its final
assignment, after the pre-fetch 99. -/
theorem progress_estimator_spec :
    (∀ (u : Nat → ℚ), (∀ n, 0 ≤ u n ∧ u n < 1) →
      ∀ n, progressRun u n ≤ progressRun u (n + 1) ∧ progressRun u n < 99) ∧
    (∀ o : GenOutcome, (100 : ℚ) ∈ progressSets o → o = GenOutcome.success) ∧
    progressSets GenOutcome.success = [0, 99, 100] := by
  refine ⟨?_, ?_, rfl⟩
  · intro u hu n
    constructor
    · obtain ⟨h0, _⟩ := hu n
      rw [progressRun, progressTick]
      split_ifs <;> nlinarith
    · have := progressRun_lt u hu n
      linarith
  · intro o ho
    cases o with
    | success => rfl
    | abortedDuringFetch => norm_num [progressSets] at ho
    | noVideoData => norm_num [progressSets] at ho
    | failed => norm_num [progressSets] at ho

/-- Witness for C8 at the constant draw `1/2` and tick 3. -/
theorem progress_estimator_spec_witness :
    (progressRun (fun _ => 1 / 2) 3 ≤ progressRun (fun _ => 1 / 2) 4 ∧
      progressRun (fun _ => 1 / 2) 3 < 99) ∧
    ((100 : ℚ) ∈ progressSets GenOutcome.abortedDuringFetch →
      GenOutcome.abortedDuringFetch = GenOutcome.success) ∧
    progressSets GenOutcome.success = [0, 99, 100] :=
  ⟨progress_estimator_spec.1 (fun _ => 1 / 2) (fun _ => by norm_num) 3,
    progress_estimator_spec.2.1 GenOutcome.abortedDuringFetch,
    progress_estimator_spec.2.2⟩

/-- A montage highlight segment (geminiService.ts:6-10). -/
structure MontageSegment where
  start_timestamp : String
  end_timestamp : String
  visual_description : String
deriving DecidableEq, Repr

/-- The response handling of `analyzeVideoForMontage`
(geminiService.ts:184-190): `jsonStr = response.text || "[]"` (an absent or
empty text falls back to the literal `"[]"`), then `JSON.parse(jsonStr)` is
returned, and any parse exception is caught and replaced by `[]`.  `parse`
stands for `JSON.parse` at the expected array type, with `none` embedding a
thrown parse error. -/
def analyzeVideoForMontage (text : Option String)
    (parse : String → Option (List MontageSegment)) : List MontageSegment :=
  match parse (orElseStr text "[]") with
  | some segs => segs
  | none => []

/-- C10: when the montage-analysis response text is absent or empty, the
fallback string `"[]"` parses to the empty list (a fixed property of
`JSON.parse`), and when the text fails to parse the caught exception yields
the empty list — in every such case `analyzeVideoForMontage` returns `[]`
rather than propagating a failure. -/
theorem analyze_montage_empty_fallback
    (parse : String → Option (List MontageSegment))
    (hp : parse "[]" = some []) :
    (analyzeVideoForMontage none parse = [] ∧
      analyzeVideoForMontage (some "") parse = []) ∧
    (∀ text, parse (orElseStr text "[]") = none →
      analyzeVideoForMontage text parse = []) := by
  refine ⟨⟨?_, ?_⟩, ?_⟩
  · simp [analyzeVideoForMontage, orElseStr, hp]
  · simp [analyzeVideoForMontage, orElseStr, hp]
  · intro text hnone
    rw [analyzeVideoForMontage, hnone]

/-- A concrete `JSON.parse` model: only the literal `"[]"` parses. -/
def parseOnlyEmpty : String → Option (List MontageSegment) :=
  fun s => if s = "[]" then some [] else none

/-- Witness for C10 at the concrete parse model, covering absent text,
empty text, and unparseable text. -/
theorem analyze_montage_empty_fallback_witness :
    (analyzeVideoForMontage none parseOnlyEmpty = [] ∧
      analyzeVideoForMontage (some "") parseOnlyEmpty = []) ∧
    (∀ text, parseOnlyEmpty (orElseStr text "[]") = none →
      analyzeVideoForMontage text parseOnlyEmpty = []) :=
  analyze_montage_empty_fallback parseOnlyEmpty rfl

end JybStudio
